import Mathlib

/-!
Verification of the timewarp repository's procedural tunnel renderer.

The repository contains five near-duplicate SDL/OpenGL host programs, each
embedding a GLSL fragment shader as a string:

 * `src/shader1-circles.cpp`            — ray-marched tunnel ("circles" variant)
 * `src/shader3-tunnel-DEV-NOT-WORKING.cpp` — corner-bending tunnel whose final
   output line overwrites the computed color with a debug value
 * `src/shader5-45single.cpp`           — screen-space rings variant with a
   `safeResolution` guard (first program in the file)
 * `src/unnamed/part_000`               — chromatic ray-marched tunnel variant
 * `src/unnamed/part_001`               — minimal rings variant

This file gives a shallow embedding of the per-pixel evaluators (GLSL floats
are modelled as exact reals), of the SDL event-handling loop (C++ floats are
modelled as rationals, exact for the operations used), and of the startup
(compile / link / uniform-lookup) sequence, and proves or refutes the frozen
claims about them.
-/

namespace Timewarp

/-! ### GLSL primitives, modelled over ℝ -/

/-- GLSL `fract(x) = x - floor(x)`. -/
noncomputable def fract (x : ℝ) : ℝ := x - ⌊x⌋

/-- GLSL `mod(x, y) = x - y*floor(x/y)`. -/
noncomputable def glslMod (x y : ℝ) : ℝ := x - y * ⌊x / y⌋

/-- GLSL `mix(a, b, t) = a*(1-t) + b*t`, written as `a + (b-a)*t`. -/
def mixR (a b t : ℝ) : ℝ := a + (b - a) * t

/-- GLSL `clamp(x, lo, hi) = min(max(x, lo), hi)`. -/
noncomputable def clampR (x lo hi : ℝ) : ℝ := min (max x lo) hi

/-- GLSL `smoothstep(e0, e1, x)`: clamp the normalized position to `[0,1]`
and apply the cubic `t*t*(3-2t)`. -/
noncomputable def smoothstepR (e0 e1 x : ℝ) : ℝ :=
  let t := clampR ((x - e0) / (e1 - e0)) 0 1
  t * t * (3 - 2 * t)

/-- 3D vector of reals (GLSL `vec3`). -/
structure V3 where
  x : ℝ
  y : ℝ
  z : ℝ

def v3add (a b : V3) : V3 := ⟨a.x + b.x, a.y + b.y, a.z + b.z⟩

def v3scale (k : ℝ) (v : V3) : V3 := ⟨k * v.x, k * v.y, k * v.z⟩

def v3mix (a b : V3) (t : ℝ) : V3 := ⟨mixR a.x b.x t, mixR a.y b.y t, mixR a.z b.z t⟩

/-- GLSL `length(vec2)`. -/
noncomputable def len2 (p : ℝ × ℝ) : ℝ := Real.sqrt (p.1 ^ 2 + p.2 ^ 2)

/-- GLSL `length(vec3)`. -/
noncomputable def len3 (v : V3) : ℝ := Real.sqrt (v.x ^ 2 + v.y ^ 2 + v.z ^ 2)

/-- GLSL `normalize(vec3)`.  Every call site in the sources has a direction
whose `z` component is at least `1.2` in absolute value, so the length is
never zero there; Lean's total division (`x / 0 = 0`) fills the off-domain
case. -/
noncomputable def normalize3 (v : V3) : V3 := ⟨v.x / len3 v, v.y / len3 v, v.z / len3 v⟩

/-- GLSL two-argument `atan(y, x)`, via the complex argument. -/
noncomputable def atan2 (y x : ℝ) : ℝ := Complex.arg ⟨x, y⟩

/-- Guarded division: the embedding of a shader division whose denominator the
source does not check.  `none` models the NaN/Inf a float division by zero
would produce. -/
noncomputable def fdiv (a b : ℝ) : Option ℝ := if b = 0 then none else some (a / b)

/-- A color lies in the unit cube `[0,1]^3` channel-wise. -/
def inUnit (c : V3) : Prop :=
  0 ≤ c.x ∧ c.x ≤ 1 ∧ 0 ≤ c.y ∧ c.y ≤ 1 ∧ 0 ≤ c.z ∧ c.z ≤ 1

/-! ### Shared shader functions (shader1-circles.cpp and part_000) -/

/-- `hash21` from shader1-circles.cpp lines 39-43 (identical in part_000):
`p = fract(p*vec2(123.34,456.21)); p += dot(p, p+45.32); return fract(p.x*p.y)`. -/
noncomputable def hash21 (p : ℝ × ℝ) : ℝ :=
  let q : ℝ × ℝ := (fract (p.1 * 123.34), fract (p.2 * 456.21))
  let d := q.1 * (q.1 + 45.32) + q.2 * (q.2 + 45.32)
  let q2 : ℝ × ℝ := (q.1 + d, q.2 + d)
  fract (q2.1 * q2.2)

/-- `noise` from shader1-circles.cpp lines 44-53 (identical in part_000):
smoothed value noise over the four hashed corners of the unit cell. -/
noncomputable def noise (p : ℝ × ℝ) : ℝ :=
  let i : ℝ × ℝ := ((⌊p.1⌋ : ℤ), (⌊p.2⌋ : ℤ))
  let f : ℝ × ℝ := (fract p.1, fract p.2)
  let g : ℝ × ℝ := (f.1 * f.1 * (3 - 2 * f.1), f.2 * f.2 * (3 - 2 * f.2))
  let a := hash21 i
  let b := hash21 (i.1 + 1, i.2)
  let c := hash21 (i.1, i.2 + 1)
  let d := hash21 (i.1 + 1, i.2 + 1)
  mixR (mixR a b g.1) (mixR c d g.1) g.2

/-- `palette` from shader1-circles.cpp lines 56-62, textually identical to
part_000 lines 56-61: three sine waves at phase offsets 0.00/0.33/0.66,
shifted by the `colorShift` uniform.  Note the constant is the literal
`6.28318`, an approximation of `2*pi`. -/
noncomputable def palette (colorShift t : ℝ) : V3 :=
  ⟨0.5 + 0.5 * Real.sin (6.28318 * (t + 0.00 + colorShift)),
   0.5 + 0.5 * Real.sin (6.28318 * (t + 0.33 + colorShift)),
   0.5 + 0.5 * Real.sin (6.28318 * (t + 0.66 + colorShift))⟩

/-! ### shader1-circles.cpp: ray-marched tunnel evaluator -/

/-- `tunnelSDF` from shader1-circles.cpp lines 65-73: radial distance to an
oscillating tube of radius `1 + wave + rings`. -/
noncomputable def tunnelSDF (iTime : ℝ) (p : V3) : ℝ :=
  let r := len2 (p.x, p.y)
  let wave := 0.3 * Real.sin (6.0 * p.z + 2.0 * Real.sin (3.0 * p.z + iTime * 0.6))
  let rings := 0.2 * Real.sin (40.0 * (r + 0.5 * Real.sin (2.0 * p.z + iTime)))
  r - (1.0 + wave + rings)

/-- Running state of the ray-march loop of shader1-circles.cpp lines 84-106:
travel distance `t`, the two accumulators, and the number of loop iterations
executed (implicit in the source's `for` counter). -/
structure MarchState where
  t : ℝ
  accum : ℝ
  glow : ℝ
  iters : ℕ

/-- One iteration of the shader1-circles.cpp ray-march loop body
(lines 88-105, everything before the `break` test). -/
noncomputable def shader1MarchStep (iTime thickness : ℝ) (ro rd : V3)
    (s : MarchState) : MarchState :=
  let pos : V3 := ⟨ro.x + rd.x * s.t, ro.y + rd.y * s.t, ro.z + rd.z * s.t⟩
  let zWrapped := glslMod pos.z 12.566370
  let rp : V3 := ⟨pos.x, pos.y, zWrapped⟩
  let d := tunnelSDF iTime rp
  let hit := Real.exp (-20.0 * |d|)
  let n := noise (pos.x * 1.3 + iTime * 0.5, pos.y * 1.3 - iTime * 0.3)
  let layer := 0.5 + 0.5 * Real.sin (8.0 * pos.z + 3.0 * n + iTime * 2.0)
  { t := s.t + max 0.02 (0.5 * |d|)
    accum := s.accum + hit * layer
    glow := s.glow + hit * (1.0 - smoothstepR 0.0 thickness |d|)
    iters := s.iters + 1 }

/-- The shader1-circles.cpp ray-march loop: up to `fuel` iterations, stopping
right after an iteration leaves `t > 100` (the source's
`if(t > 100.0) break;`). -/
noncomputable def shader1MarchAux (iTime thickness : ℝ) (ro rd : V3) :
    ℕ → MarchState → MarchState
  | 0, s => s
  | n + 1, s =>
      let s' := shader1MarchStep iTime thickness ro rd s
      if 100.0 < s'.t then s' else shader1MarchAux iTime thickness ro rd n s'

/-- The full shader1-circles.cpp march: 120 iterations from
`t = glow = accum = 0`. -/
noncomputable def shader1March (iTime thickness : ℝ) (ro rd : V3) : MarchState :=
  shader1MarchAux iTime thickness ro rd 120 ⟨0, 0, 0, 0⟩

/-- The camera ray direction of shader1-circles.cpp line 81:
`normalize(vec3(p.xy, -1.5 + 0.3*sin(iTime*0.2)))`. -/
noncomputable def shader1RayDir (iTime : ℝ) (p : ℝ × ℝ) : V3 :=
  normalize3 ⟨p.1, p.2, -1.5 + 0.3 * Real.sin (iTime * 0.2)⟩

/-- The depth/fog factor of shader1-circles.cpp line 109:
`clamp(exp(-0.02*t), 0.0, 1.0)`. -/
noncomputable def depthFactor (t : ℝ) : ℝ := clampR (Real.exp (-0.02 * t)) 0 1

/-- Intermediate results of the shader1-circles.cpp fragment `main`
(lines 75-128), exposing the locals `depth` and `intensity` next to the
final color. -/
structure Shader1Frag where
  depth : ℝ
  intensity : ℝ
  col : V3

/-- The shader1-circles.cpp fragment `main` (lines 75-128), from the `uv`
varying and the six uniforms to the emitted color and the `depth` /
`intensity` locals.  The only division by a resolution component is the
aspect correction `p.x *= iResolution.x / iResolution.y` (line 77), embedded
as a guarded division: the source has no zero-resolution fallback. -/
noncomputable def shader1Fragment (uv : ℝ × ℝ)
    (iTime resX resY speed warp thickness colorShift : ℝ) : Option Shader1Frag :=
  (fdiv resX resY).map fun aspect =>
    let p : ℝ × ℝ := ((uv.1 * 2.0 - 1.0) * aspect, uv.2 * 2.0 - 1.0)
    let ro : V3 := ⟨0.0, 0.0, iTime * speed⟩
    let rd : V3 := shader1RayDir iTime p
    let m := shader1March iTime thickness ro rd
    let depth := depthFactor m.t
    let intensity := clampR (m.accum * 0.6 + m.glow * 0.8) 0.0 2.5
    let palettePos := fract (iTime * 0.1 * warp + m.t * 0.02 + m.accum * 0.1)
    let col := v3scale intensity (palette colorShift palettePos)
    let veins := 0.5 + 0.5 *
      Real.sin (20.0 * len2 p - iTime * 2.5 + noise (p.1 * 10.0, p.2 * 10.0))
    let col := v3add col (v3scale (0.15 * veins) (palette colorShift (palettePos + 0.2)))
    let vig := smoothstepR 1.2 0.2 (len2 p)
    let col := v3scale vig col
    let col := v3mix ⟨0.02, 0.02, 0.03⟩ col depth
    let col : V3 := ⟨clampR col.x 0 1 ^ (0.8 : ℝ), clampR col.y 0 1 ^ (0.8 : ℝ),
      clampR col.z 0 1 ^ (0.8 : ℝ)⟩
    { depth := depth, intensity := intensity, col := col }

/-- The color emitted by the shader1-circles.cpp fragment shader. -/
noncomputable def shader1Evaluate (uv : ℝ × ℝ)
    (iTime resX resY speed warp thickness colorShift : ℝ) : Option V3 :=
  (shader1Fragment uv iTime resX resY speed warp thickness colorShift).map (·.col)

/-- The rasterizer/vertex-shader mapping from a pixel position to the `uv`
varying of shader1-circles.cpp (vertex shader line 22 composed with the
pixel-to-NDC map): `uv = pixel / resolution`. -/
noncomputable def pixelToUV (px py w h : ℝ) : ℝ × ℝ := (px / w, py / h)

/-! ### shader5-45single.cpp (first program): screen-space rings evaluator -/

/-- `safeResolution` from shader5-45single.cpp lines 38-42: fall back to
1280x720 when either component of `iResolution` is zero or negative. -/
noncomputable def safeResolution (res : ℝ × ℝ) : ℝ × ℝ :=
  if res.1 ≤ 0.0 ∨ res.2 ≤ 0.0 then (1280.0, 720.0) else res

/-- The fragment `main` of the first program in shader5-45single.cpp
(lines 44-64), from `gl_FragCoord.xy` and the six uniforms to the emitted
color.  The two divisions by `res.y` are guarded divisions; `safeResolution`
makes them succeed. -/
noncomputable def shader5Evaluate (fragCoord : ℝ × ℝ)
    (iTime resX resY speed warp thickness colorShift : ℝ) : Option V3 := do
  let res := safeResolution (resX, resY)
  let px ← fdiv (fragCoord.1 * 2.0 - res.1) res.2
  let py ← fdiv (fragCoord.2 * 2.0 - res.2) res.2
  let z := iTime * max speed 0.001
  let r := len2 (px, py)
  let a := atan2 py px
  let a2 := a + warp * 0.25 * Real.sin (2.0 * a + 0.8 * z)
  let rings := smoothstepR thickness 0.0 |Real.sin (10.0 * r - 0.7 * z)|
  let stripes := 0.5 + 0.5 * Real.sin (6.0 * a2 + 1.1 * z + colorShift)
  let baseA : V3 := ⟨0.12, 0.25, 0.90⟩
  let baseB : V3 := ⟨0.95, 0.30, 0.10⟩
  let col := v3mix baseA baseB stripes
  pure (v3scale (0.45 + 0.55 * rings) col)

/-! ### shader3-tunnel-DEV-NOT-WORKING.cpp: debug evaluator -/

/-- The value emitted by the fragment `main` of
shader3-tunnel-DEV-NOT-WORKING.cpp.  The body (lines 142-209) computes a
full tunnel color `col`, but line 211 discards it and writes the debug value
`FragColor = vec4(p*0.5+0.5, 0.0, 1.0)`; only the emitted value is embedded
here.  `p = (gl_FragCoord.xy*2.0 - uResolution.xy) / uResolution.y`
(line 144) divides by the raw resolution height with no guard. -/
noncomputable def shader3Evaluate (fragCoord : ℝ × ℝ) (iTime resX resY : ℝ) :
    Option V3 := do
  let px ← fdiv (fragCoord.1 * 2.0 - resX) resY
  let py ← fdiv (fragCoord.2 * 2.0 - resY) resY
  pure ⟨px * 0.5 + 0.5, py * 0.5 + 0.5, 0.0⟩

/-! ### part_000: chromatic ray-marched tunnel, march loop -/

/-- `tunnelSDF` from part_000 lines 64-70 (different amplitudes from the
shader1 variant). -/
noncomputable def part0TunnelSDF (iTime : ℝ) (p : V3) : ℝ :=
  let r := len2 (p.x, p.y)
  let wave := 0.35 * Real.sin (6.0 * p.z + 2.0 * Real.sin (3.0 * p.z + iTime * 0.6))
  let rings := 0.22 * Real.sin (40.0 * (r + 0.6 * Real.sin (2.0 * p.z + iTime)))
  r - (1.0 + wave + rings)

/-- Running state of the part_000 ray-march loop (lines 104-137): travel
distance, per-channel accumulators, glow, and the iteration count. -/
structure Part0MarchState where
  t : ℝ
  accumR : ℝ
  accumG : ℝ
  accumB : ℝ
  glow : ℝ
  iters : ℕ

/-- One iteration of the part_000 ray-march loop body (lines 111-136,
everything before the `break` test). -/
noncomputable def part0MarchStep (iTime thickness : ℝ) (ro rd : V3)
    (s : Part0MarchState) : Part0MarchState :=
  let pos : V3 := ⟨ro.x + rd.x * s.t, ro.y + rd.y * s.t, ro.z + rd.z * s.t⟩
  let zWrapped := glslMod (pos.z + 10.0 * Real.sin (iTime * 0.15 + pos.x * 0.07)) 12.566370
  let rp : V3 := ⟨pos.x, pos.y, zWrapped⟩
  let d := part0TunnelSDF iTime rp
  let hit := Real.exp (-24.0 * |d|)
  let n := noise (pos.x * 1.6 + iTime * 0.6, pos.y * 1.6 - iTime * 0.4)
  let layerBase := 0.5 + 0.5 * Real.sin (10.0 * pos.z + 4.0 * n + iTime * 3.0)
  let pulse := 0.6 + 0.4 * Real.sin (pos.z * 3.0 + iTime * 4.0 + n * 6.0)
  let lr := layerBase * (1.0 + 0.2 * Real.sin (iTime * 2.3 + pos.z * 2.0 + n * 3.0))
  let lg := layerBase * (1.0 + 0.2 * Real.sin (iTime * 2.7 + pos.z * 2.2 + n * 2.5))
  let lb := layerBase * (1.0 + 0.2 * Real.sin (iTime * 3.1 + pos.z * 2.4 + n * 2.0))
  { t := s.t + max 0.015 (0.45 * |d|)
    accumR := s.accumR + hit * lr * pulse
    accumG := s.accumG + hit * lg * pulse
    accumB := s.accumB + hit * lb * pulse
    glow := s.glow + hit * (1.0 - smoothstepR 0.0 thickness |d|)
    iters := s.iters + 1 }

/-- The part_000 ray-march loop: up to `fuel` iterations, stopping right
after an iteration leaves `t > 200` (the source's `if(t > 200.0) break;`). -/
noncomputable def part0MarchAux (iTime thickness : ℝ) (ro rd : V3) :
    ℕ → Part0MarchState → Part0MarchState
  | 0, s => s
  | n + 1, s =>
      let s' := part0MarchStep iTime thickness ro rd s
      if 200.0 < s'.t then s' else part0MarchAux iTime thickness ro rd n s'

/-- The full part_000 march: 140 iterations from the all-zero state. -/
noncomputable def part0March (iTime thickness : ℝ) (ro rd : V3) : Part0MarchState :=
  part0MarchAux iTime thickness ro rd 140 ⟨0, 0, 0, 0, 0, 0⟩

/-! ### Interactive session loop (shader1-circles.cpp `main`, lines 213-239)

The C++ parameter state uses `float`; every operation the event handler
performs (`*1.1`, `/1.1`, `±0.1`, `±0.01`, `±0.05`, `max`) is exact over the
rationals, so the state is modelled with `ℚ`. -/

/-- SDL keycodes of the keys the event loop tests (SDL2 values:
`SDLK_<x>` is the ASCII code for printable keys and
`scancode | 1<<30` for the arrows). -/
def SDLK_ESCAPE : ℕ := 27
def SDLK_UP : ℕ := 1073741906
def SDLK_DOWN : ℕ := 1073741905
def SDLK_LEFT : ℕ := 1073741904
def SDLK_RIGHT : ℕ := 1073741903
def SDLK_z : ℕ := 122
def SDLK_x : ℕ := 120
def SDLK_c : ℕ := 99
def SDLK_v : ℕ := 118

/-- The nine keys the SDL_KEYDOWN handler recognizes. -/
def recognizedKeys : List ℕ :=
  [SDLK_ESCAPE, SDLK_UP, SDLK_DOWN, SDLK_LEFT, SDLK_RIGHT,
   SDLK_z, SDLK_x, SDLK_c, SDLK_v]

/-- Session state owned by the loop: the `running` flag, the four tunable
parameters, and the stored window size. -/
structure SessionState where
  running : Bool
  speed : ℚ
  warp : ℚ
  thickness : ℚ
  colorShift : ℚ
  winW : Int
  winH : Int
deriving DecidableEq

/-- The state at session start (shader1-circles.cpp lines 170, 213,
216-219): 1280x720 window, `speed=6.0, warp=1.0, thickness=0.18,
colorShift=0.0`, loop running. -/
def initialState : SessionState :=
  { running := true, speed := 6, warp := 1, thickness := 0.18,
    colorShift := 0, winW := 1280, winH := 720 }

/-- The SDL events the loop inspects: quit, key-down with a keycode,
window size change with the new size, and anything else. -/
inductive SDLEvent where
  | quit
  | keyDown (sym : ℕ)
  | sizeChanged (w h : Int)
  | other
deriving DecidableEq

/-- One round of the event drain in shader1-circles.cpp lines 222-239.  The
source uses independent `if`s on `e.key.keysym.sym`, but the tested keycodes
are pairwise distinct, so at most one branch fires and the chain below is
equivalent. -/
def handleEvent (s : SessionState) : SDLEvent → SessionState
  | .quit => { s with running := false }
  | .keyDown sym =>
      if sym = SDLK_ESCAPE then { s with running := false }
      else if sym = SDLK_UP then { s with speed := s.speed * 1.1 }
      else if sym = SDLK_DOWN then { s with speed := s.speed / 1.1 }
      else if sym = SDLK_LEFT then { s with warp := max 0.1 (s.warp - 0.1) }
      else if sym = SDLK_RIGHT then { s with warp := s.warp + 0.1 }
      else if sym = SDLK_z then { s with thickness := max 0.01 (s.thickness - 0.01) }
      else if sym = SDLK_x then { s with thickness := s.thickness + 0.01 }
      else if sym = SDLK_c then { s with colorShift := s.colorShift + 0.05 }
      else if sym = SDLK_v then { s with colorShift := s.colorShift - 0.05 }
      else s
  | .sizeChanged w h => { s with winW := w, winH := h }
  | .other => s

/-- The session state after draining a finite sequence of events. -/
def runEvents (evs : List SDLEvent) : SessionState :=
  evs.foldl handleEvent initialState

/-! ### Startup sequence (shader1-circles.cpp `main`, lines 159-210)

The GL/SDL side is abstracted as an environment recording which fallible
startup calls succeed and what `glGetUniformLocation` returns per name
(`-1` when the name is not an active uniform, per the GL spec). -/

/-- Abstract device/environment for one run of `main`'s startup. -/
structure GLEnv where
  sdlOk : Bool
  windowOk : Bool
  contextOk : Bool
  gladOk : Bool
  vsOk : Bool
  fsOk : Bool
  linkOk : Bool
  uniformLoc : String → Int

/-- The six uniform names `main` resolves (shader1-circles.cpp lines
205-210; shader3-tunnel-DEV-NOT-WORKING.cpp lines 291-296 use the same
names even though its shader declares `uTime`/`uResolution`). -/
def uniformNames : List String :=
  ["iTime", "iResolution", "speed", "warp", "thickness", "colorShift"]

/-- The data `main` carries into the interactive loop: the six uniform
locations it looked up (unchecked — a location may be `-1`). -/
structure LoopEntry where
  locTime : Int
  locRes : Int
  locSpeed : Int
  locWarp : Int
  locThickness : Int
  locColorShift : Int
deriving DecidableEq

/-- The startup sequence of `main` (shader1-circles.cpp lines 159-210,
identical in the other hosts): each early `return 1` becomes `none`, and the
strings written to stderr/stdout on the way are collected.  `compileShader`
prints its info log and returns handle `0` on failure (lines 131-142), and
`main` aborts when either handle is `0` or linking fails; the six
`glGetUniformLocation` results are stored without any check. -/
def startupMain (env : GLEnv) : Option LoopEntry × List String :=
  if !env.sdlOk then (none, ["SDL_Init failed"])
  else if !env.windowOk then (none, ["CreateWindow failed"])
  else if !env.contextOk then (none, ["CreateContext failed"])
  else if !env.gladOk then (none, ["Failed to load GL functions"])
  else
    let vsLog : List String := if env.vsOk then [] else ["Shader compile error"]
    let fsLog : List String := if env.fsOk then [] else ["Shader compile error"]
    if !env.vsOk || !env.fsOk then (none, vsLog ++ fsLog)
    else if !env.linkOk then (none, ["Program link error"])
    else
      (some { locTime := env.uniformLoc "iTime"
              locRes := env.uniformLoc "iResolution"
              locSpeed := env.uniformLoc "speed"
              locWarp := env.uniformLoc "warp"
              locThickness := env.uniformLoc "thickness"
              locColorShift := env.uniformLoc "colorShift" }, [])

/-- The active uniforms of the shader3-tunnel-DEV-NOT-WORKING.cpp fragment
shader (lines 32-33): it declares `uResolution`/`uTime`, not the
`iResolution`/`iTime` the host looks up, and none of the four parameter
uniforms. -/
def shader3ActiveUniforms : List String := ["uResolution", "uTime"]

/-- A GL-conformant uniform lookup for a program whose active uniforms are
`active`: any other name resolves to `-1`. -/
def conformingLoc (active : List String) (assign : String → Int) : String → Int :=
  fun n => if n ∈ active then assign n else -1

/-- A device on which every startup call succeeds and the linked program is
the shader3 one: all six lookups the host performs return `-1` for the four
parameter names, and `-1` for `iTime`/`iResolution` as well (the shader
names them `uTime`/`uResolution`). -/
def shader3Env : GLEnv :=
  { sdlOk := true, windowOk := true, contextOk := true, gladOk := true,
    vsOk := true, fsOk := true, linkOk := true,
    uniformLoc := conformingLoc shader3ActiveUniforms fun _ => 0 }

/-- A device on which every pre-shader startup step succeeds but compiling
the vertex shader fails. -/
def envCompileFail : GLEnv :=
  { sdlOk := true, windowOk := true, contextOk := true, gladOk := true,
    vsOk := false, fsOk := true, linkOk := true, uniformLoc := fun _ => 0 }

/-! ### Bound lemmas for the GLSL primitives -/

lemma clampR_mem_unit (x : ℝ) : 0 ≤ clampR x 0 1 ∧ clampR x 0 1 ≤ 1 := by
  unfold clampR
  exact ⟨le_min (le_max_right x 0) zero_le_one, min_le_right _ _⟩

lemma clampR_eq_of_mem {x lo hi : ℝ} (h0 : lo ≤ x) (h1 : x ≤ hi) :
    clampR x lo hi = x := by
  unfold clampR
  rw [max_eq_left h0, min_eq_left h1]

lemma smoothstepR_mem_unit (e0 e1 x : ℝ) :
    0 ≤ smoothstepR e0 e1 x ∧ smoothstepR e0 e1 x ≤ 1 := by
  unfold smoothstepR
  simp only []
  obtain ⟨h0, h1⟩ := clampR_mem_unit ((x - e0) / (e1 - e0))
  set t := clampR ((x - e0) / (e1 - e0)) 0 1 with ht
  constructor
  · nlinarith
  · nlinarith [sq_nonneg (1 - t)]

lemma half_add_half_sin_mem (x : ℝ) :
    0 ≤ 0.5 + 0.5 * Real.sin x ∧ 0.5 + 0.5 * Real.sin x ≤ 1 := by
  have h1 := Real.neg_one_le_sin x
  have h2 := Real.sin_le_one x
  constructor <;> nlinarith

lemma rpow_clamp_mem_unit (v : ℝ) :
    0 ≤ clampR v 0 1 ^ (0.8 : ℝ) ∧ clampR v 0 1 ^ (0.8 : ℝ) ≤ 1 := by
  obtain ⟨h0, h1⟩ := clampR_mem_unit v
  exact ⟨Real.rpow_nonneg h0 _, Real.rpow_le_one h0 h1 (by norm_num)⟩

/-- Every channel of every color the palette produces lies in `[0,1]`. -/
lemma palette_mem_unit (cs t : ℝ) : inUnit (palette cs t) := by
  unfold palette inUnit
  refine ⟨?_, ?_, ?_, ?_, ?_, ?_⟩ <;>
    simp only [] <;>
    first
      | exact (half_add_half_sin_mem _).1
      | exact (half_add_half_sin_mem _).2

/-! ### shader5 totality and channel bounds -/

lemma fdiv_eq_some {a b : ℝ} (h : b ≠ 0) : fdiv a b = some (a / b) := by
  unfold fdiv; rw [if_neg h]

lemma safeResolution_snd_pos (r : ℝ × ℝ) : 0 < (safeResolution r).2 := by
  unfold safeResolution
  split_ifs with h
  · norm_num
  · push_neg at h
    linarith [h.2]

/-- The final color expression of the shader5 fragment shader lies in the
unit cube whenever its `rings` and `stripes` factors lie in `[0,1]`. -/
lemma shader5_color_mem {rings stripes : ℝ}
    (hr0 : 0 ≤ rings) (hr1 : rings ≤ 1) (hs0 : 0 ≤ stripes) (hs1 : stripes ≤ 1) :
    inUnit (v3scale (0.45 + 0.55 * rings)
      (v3mix ⟨0.12, 0.25, 0.90⟩ ⟨0.95, 0.30, 0.10⟩ stripes)) := by
  unfold inUnit v3scale v3mix mixR
  refine ⟨?_, ?_, ?_, ?_, ?_, ?_⟩ <;> dsimp only <;> nlinarith

/-- The shader5 evaluator is total and channel-bounded: for every fragment,
time, resolution (including zero or negative ones) and parameter values it
returns a color in `[0,1]^3`. -/
lemma shader5_total (fragCoord : ℝ × ℝ) (iTime rx ry sp wa th cs : ℝ) :
    ∃ c, shader5Evaluate fragCoord iTime rx ry sp wa th cs = some c ∧ inUnit c := by
  have hy : 0 < (safeResolution (rx, ry)).2 := safeResolution_snd_pos _
  have hne : (safeResolution (rx, ry)).2 ≠ 0 := ne_of_gt hy
  unfold shader5Evaluate
  simp only [fdiv_eq_some hne, Option.bind_eq_bind, Option.bind_some, pure]
  exact ⟨_, rfl, shader5_color_mem (smoothstepR_mem_unit _ _ _).1
    (smoothstepR_mem_unit _ _ _).2 (half_add_half_sin_mem _).1
    (half_add_half_sin_mem _).2⟩

/-! ### shader1 channel bounds -/

/-- Whenever the shader1 fragment pipeline produces a result, its color —
the gamma curve applied to the clamped composite — lies in `[0,1]^3`. -/
lemma shader1Frag_col_mem {uv : ℝ × ℝ} {iTime rx ry sp wa th cs : ℝ}
    {f : Shader1Frag}
    (h : shader1Fragment uv iTime rx ry sp wa th cs = some f) : inUnit f.col := by
  unfold shader1Fragment at h
  obtain ⟨aspect, -, heq⟩ := Option.map_eq_some'.mp h
  subst heq
  exact ⟨(rpow_clamp_mem_unit _).1, (rpow_clamp_mem_unit _).2,
    (rpow_clamp_mem_unit _).1, (rpow_clamp_mem_unit _).2,
    (rpow_clamp_mem_unit _).1, (rpow_clamp_mem_unit _).2⟩

/-- With a nonzero resolution height the shader1 pipeline produces a result. -/
lemma shader1Fragment_isSome {uv : ℝ × ℝ} {iTime rx ry sp wa th cs : ℝ}
    (h : ry ≠ 0) :
    ∃ f, shader1Fragment uv iTime rx ry sp wa th cs = some f := by
  unfold shader1Fragment
  rw [fdiv_eq_some h]
  exact ⟨_, rfl⟩

/-! ### March-loop structure lemmas (shader1 variant) -/

/-- Each shader1 march iteration advances `t` by at least the floor step
`0.02` (the adaptive step is `max 0.02 (0.5*|d|)`). -/
lemma shader1MarchStep_t (iTime th : ℝ) (ro rd : V3) (s : MarchState) :
    s.t + 0.02 ≤ (shader1MarchStep iTime th ro rd s).t :=
  add_le_add_left (le_max_left _ _) _

lemma shader1MarchStep_iters (iTime th : ℝ) (ro rd : V3) (s : MarchState) :
    (shader1MarchStep iTime th ro rd s).iters = s.iters + 1 := rfl

lemma shader1MarchAux_iters_le (iTime th : ℝ) (ro rd : V3) :
    ∀ (n : ℕ) (s : MarchState),
      (shader1MarchAux iTime th ro rd n s).iters ≤ s.iters + n
  | 0, s => by simp [shader1MarchAux]
  | n + 1, s => by
      unfold shader1MarchAux
      dsimp only
      split_ifs with h
      · rw [shader1MarchStep_iters]
        omega
      · have h2 := shader1MarchAux_iters_le iTime th ro rd n
          (shader1MarchStep iTime th ro rd s)
        rw [shader1MarchStep_iters] at h2
        omega

lemma shader1MarchAux_t_floor (iTime th : ℝ) (ro rd : V3) :
    ∀ (n : ℕ) (s : MarchState), 0.02 * (s.iters : ℝ) ≤ s.t →
      0.02 * ((shader1MarchAux iTime th ro rd n s).iters : ℝ) ≤
        (shader1MarchAux iTime th ro rd n s).t
  | 0, s, h => by simpa [shader1MarchAux] using h
  | n + 1, s, h => by
      have ht := shader1MarchStep_t iTime th ro rd s
      unfold shader1MarchAux
      dsimp only
      split_ifs with hcut
      · rw [shader1MarchStep_iters]
        push_cast
        linarith
      · exact shader1MarchAux_t_floor iTime th ro rd n _ (by
          rw [shader1MarchStep_iters]
          push_cast
          linarith)

lemma shader1MarchAux_full_or_cutoff (iTime th : ℝ) (ro rd : V3) :
    ∀ (n : ℕ) (s : MarchState),
      (shader1MarchAux iTime th ro rd n s).iters = s.iters + n ∨
        100 < (shader1MarchAux iTime th ro rd n s).t
  | 0, s => Or.inl (by simp [shader1MarchAux])
  | n + 1, s => by
      unfold shader1MarchAux
      dsimp only
      split_ifs with hcut
      · exact Or.inr (by linarith)
      · rcases shader1MarchAux_full_or_cutoff iTime th ro rd n
          (shader1MarchStep iTime th ro rd s) with h | h
        · left
          rw [h, shader1MarchStep_iters]
          omega
        · exact Or.inr h

/-! ### March-loop structure lemmas (part_000 variant) -/

/-- Each part_000 march iteration advances `t` by at least the floor step
`0.015` (the adaptive step is `max 0.015 (0.45*|d|)`). -/
lemma part0MarchStep_t (iTime th : ℝ) (ro rd : V3) (s : Part0MarchState) :
    s.t + 0.015 ≤ (part0MarchStep iTime th ro rd s).t :=
  add_le_add_left (le_max_left _ _) _

lemma part0MarchStep_iters (iTime th : ℝ) (ro rd : V3) (s : Part0MarchState) :
    (part0MarchStep iTime th ro rd s).iters = s.iters + 1 := rfl

lemma part0MarchAux_iters_le (iTime th : ℝ) (ro rd : V3) :
    ∀ (n : ℕ) (s : Part0MarchState),
      (part0MarchAux iTime th ro rd n s).iters ≤ s.iters + n
  | 0, s => by simp [part0MarchAux]
  | n + 1, s => by
      unfold part0MarchAux
      dsimp only
      split_ifs with h
      · rw [part0MarchStep_iters]
        omega
      · have h2 := part0MarchAux_iters_le iTime th ro rd n
          (part0MarchStep iTime th ro rd s)
        rw [part0MarchStep_iters] at h2
        omega

lemma part0MarchAux_t_floor (iTime th : ℝ) (ro rd : V3) :
    ∀ (n : ℕ) (s : Part0MarchState), 0.015 * (s.iters : ℝ) ≤ s.t →
      0.015 * ((part0MarchAux iTime th ro rd n s).iters : ℝ) ≤
        (part0MarchAux iTime th ro rd n s).t
  | 0, s, h => by simpa [part0MarchAux] using h
  | n + 1, s, h => by
      have ht := part0MarchStep_t iTime th ro rd s
      unfold part0MarchAux
      dsimp only
      split_ifs with hcut
      · rw [part0MarchStep_iters]
        push_cast
        linarith
      · exact part0MarchAux_t_floor iTime th ro rd n _ (by
          rw [part0MarchStep_iters]
          push_cast
          linarith)

lemma part0MarchAux_full_or_cutoff (iTime th : ℝ) (ro rd : V3) :
    ∀ (n : ℕ) (s : Part0MarchState),
      (part0MarchAux iTime th ro rd n s).iters = s.iters + n ∨
        200 < (part0MarchAux iTime th ro rd n s).t
  | 0, s => Or.inl (by simp [part0MarchAux])
  | n + 1, s => by
      unfold part0MarchAux
      dsimp only
      split_ifs with hcut
      · exact Or.inr (by linarith)
      · rcases part0MarchAux_full_or_cutoff iTime th ro rd n
          (part0MarchStep iTime th ro rd s) with h | h
        · left
          rw [h, part0MarchStep_iters]
          omega
        · exact Or.inr h

/-! ### The center ray of the C9 scenario

At `time = 0`, default parameters, resolution 1280x720 and pixel (640,360),
the shader1 ray starts at the origin and points straight down the tunnel
axis, so the marched position always has `x = y = 0` and the SDF value is
the negated tube radius, which lies in `[1/2, 3/2]`. -/

lemma center_sdf_eq (z : ℝ) :
    tunnelSDF 0 ⟨0, 0, z⟩ =
      0 - (1 + 0.3 * Real.sin (6.0 * z + 2.0 * Real.sin (3.0 * z + 0 * 0.6)) +
        0.2 * Real.sin (40.0 * (0 + 0.5 * Real.sin (2.0 * z + 0)))) := by
  unfold tunnelSDF len2
  norm_num

lemma center_sdf_bound (z : ℝ) :
    1 / 2 ≤ |tunnelSDF 0 ⟨0, 0, z⟩| ∧ |tunnelSDF 0 ⟨0, 0, z⟩| ≤ 3 / 2 := by
  rw [center_sdf_eq]
  have h1a := Real.neg_one_le_sin (6.0 * z + 2.0 * Real.sin (3.0 * z + 0 * 0.6))
  have h1b := Real.sin_le_one (6.0 * z + 2.0 * Real.sin (3.0 * z + 0 * 0.6))
  have h2a := Real.neg_one_le_sin (40.0 * (0 + 0.5 * Real.sin (2.0 * z + 0)))
  have h2b := Real.sin_le_one (40.0 * (0 + 0.5 * Real.sin (2.0 * z + 0)))
  rw [abs_of_nonpos (by nlinarith)]
  constructor <;> nlinarith

lemma center_step_t (th : ℝ) (s : MarchState) :
    (shader1MarchStep 0 th ⟨0, 0, 0⟩ ⟨0, 0, -1⟩ s).t =
      s.t + max 0.02 (0.5 * |tunnelSDF 0 ⟨0, 0, glslMod (-s.t) 12.566370⟩|) := by
  unfold shader1MarchStep
  norm_num

lemma center_step_bounds (th : ℝ) (s : MarchState) :
    s.t + 1 / 4 ≤ (shader1MarchStep 0 th ⟨0, 0, 0⟩ ⟨0, 0, -1⟩ s).t ∧
      (shader1MarchStep 0 th ⟨0, 0, 0⟩ ⟨0, 0, -1⟩ s).t ≤ s.t + 3 / 4 := by
  rw [center_step_t]
  obtain ⟨hb1, hb2⟩ := center_sdf_bound (glslMod (-s.t) 12.566370)
  rw [max_eq_right (by linarith)]
  constructor <;> linarith

/-- Invariant induction along the center marching: starting from an in-range
state whose remaining fuel exactly fills the 120-iteration budget, the march
never triggers the `t > 100` cutoff, runs all 120 iterations, and ends with
`t` in `[30, 90]`. -/
lemma center_marchAux (th : ℝ) :
    ∀ (n : ℕ) (s : MarchState), s.iters + n = 120 →
      (1 / 4 : ℝ) * s.iters ≤ s.t → s.t ≤ (3 / 4 : ℝ) * s.iters →
      (shader1MarchAux 0 th ⟨0, 0, 0⟩ ⟨0, 0, -1⟩ n s).iters = 120 ∧
        30 ≤ (shader1MarchAux 0 th ⟨0, 0, 0⟩ ⟨0, 0, -1⟩ n s).t ∧
        (shader1MarchAux 0 th ⟨0, 0, 0⟩ ⟨0, 0, -1⟩ n s).t ≤ 90
  | 0, s, h0, h1, h2 => by
      have hs : s.iters = 120 := by omega
      rw [hs] at h1 h2
      push_cast at h1 h2
      exact ⟨by simpa [shader1MarchAux] using hs,
        by simpa [shader1MarchAux] using (by linarith : (30 : ℝ) ≤ s.t),
        by simpa [shader1MarchAux] using (by linarith : s.t ≤ (90 : ℝ))⟩
  | n + 1, s, h0, h1, h2 => by
      obtain ⟨hst1, hst2⟩ := center_step_bounds th s
      have hiters : (shader1MarchStep 0 th ⟨0, 0, 0⟩ ⟨0, 0, -1⟩ s).iters = s.iters + 1 :=
        shader1MarchStep_iters 0 th ⟨0, 0, 0⟩ ⟨0, 0, -1⟩ s
      have hle : ((s.iters : ℝ) + 1) ≤ 120 := by
        have : s.iters + 1 ≤ 120 := by omega
        exact_mod_cast this
      have hnew1 : (1 / 4 : ℝ) * ((shader1MarchStep 0 th ⟨0, 0, 0⟩ ⟨0, 0, -1⟩ s).iters) ≤
          (shader1MarchStep 0 th ⟨0, 0, 0⟩ ⟨0, 0, -1⟩ s).t := by
        rw [hiters]
        push_cast
        linarith
      have hnew2 : (shader1MarchStep 0 th ⟨0, 0, 0⟩ ⟨0, 0, -1⟩ s).t ≤
          (3 / 4 : ℝ) * ((shader1MarchStep 0 th ⟨0, 0, 0⟩ ⟨0, 0, -1⟩ s).iters) := by
        rw [hiters]
        push_cast
        linarith
      have hcut : ¬ (100.0 < (shader1MarchStep 0 th ⟨0, 0, 0⟩ ⟨0, 0, -1⟩ s).t) := by
        rw [hiters] at hnew2
        push_cast at hnew2
        have h90 : (shader1MarchStep 0 th ⟨0, 0, 0⟩ ⟨0, 0, -1⟩ s).t ≤ 90 := by nlinarith
        norm_num
        linarith
      unfold shader1MarchAux
      rw [if_neg hcut]
      exact center_marchAux th n (shader1MarchStep 0 th ⟨0, 0, 0⟩ ⟨0, 0, -1⟩ s)
        (by omega) hnew1 hnew2

/-- At the C9 scenario the shader1 march runs its full 120-iteration budget
and ends with `t ∈ [30, 90]`. -/
lemma center_march (th : ℝ) :
    (shader1March 0 th ⟨0, 0, 0⟩ ⟨0, 0, -1⟩).iters = 120 ∧
      30 ≤ (shader1March 0 th ⟨0, 0, 0⟩ ⟨0, 0, -1⟩).t ∧
      (shader1March 0 th ⟨0, 0, 0⟩ ⟨0, 0, -1⟩).t ≤ 90 := by
  unfold shader1March
  exact center_marchAux th 120 ⟨0, 0, 0, 0⟩ (by norm_num) (by norm_num) (by norm_num)

lemma rayDir_center : shader1RayDir 0 0 = ⟨0, 0, -1⟩ := by
  have h1 : shader1RayDir 0 0 = normalize3 ⟨0, 0, -1.5⟩ := by
    unfold shader1RayDir
    norm_num [Prod.fst_zero, Prod.snd_zero]
  have h : len3 ⟨0, 0, -1.5⟩ = 1.5 := by
    unfold len3
    dsimp only
    rw [show ((0 : ℝ) ^ 2 + (0 : ℝ) ^ 2 + ((-1.5 : ℝ)) ^ 2) = (1.5 : ℝ) ^ 2 by norm_num]
    exact Real.sqrt_sq (by norm_num)
  rw [h1]
  unfold normalize3
  rw [h]
  simp only [V3.mk.injEq]
  norm_num

lemma depthFactor_bounds {t : ℝ} (h30 : 30 ≤ t) (h90 : t ≤ 90) :
    Real.exp (-(9 / 5) : ℝ) ≤ depthFactor t ∧ depthFactor t ≤ Real.exp (-(3 / 5) : ℝ) := by
  unfold depthFactor
  have h1 : Real.exp (-0.02 * t) ≤ 1 := Real.exp_le_one_iff.mpr (by linarith)
  have h0 : (0 : ℝ) ≤ Real.exp (-0.02 * t) := (Real.exp_pos (-0.02 * t)).le
  rw [clampR_eq_of_mem h0 h1]
  exact ⟨Real.exp_le_exp.mpr (by linarith), Real.exp_le_exp.mpr (by linarith)⟩

lemma exp_neg_point_six_lt : Real.exp (-(3 / 5) : ℝ) < 9 / 10 := by
  have h := Real.add_one_le_exp (3 / 5 : ℝ)
  have hmul : Real.exp (-(3 / 5) : ℝ) * Real.exp (3 / 5 : ℝ) = 1 := by
    rw [← Real.exp_add]
    norm_num
  nlinarith [Real.exp_pos (-(3 / 5) : ℝ)]

/-- Full evaluation of the C9 scenario: at `time = 0`, defaults
(`speed=6, warp=1, thickness=0.18, colorShift=0`), resolution 1280x720 and
pixel (640,360), the shader1 pipeline produces a result whose depth factor
lies in `[exp(-1.8), exp(-0.6)]` and whose color lies in `[0,1]^3`. -/
lemma center_frag :
    ∃ f, shader1Fragment (pixelToUV 640 360 1280 720) 0 1280 720 6 1 0.18 0 = some f ∧
      Real.exp (-(9 / 5) : ℝ) ≤ f.depth ∧ f.depth ≤ Real.exp (-(3 / 5) : ℝ) ∧
      inUnit f.col := by
  have huv : pixelToUV 640 360 1280 720 = ((1 / 2 : ℝ), (1 / 2 : ℝ)) := by
    unfold pixelToUV
    norm_num
  have hne : (720 : ℝ) ≠ 0 := by norm_num
  rw [huv]
  unfold shader1Fragment
  rw [fdiv_eq_some hne]
  simp only [Option.map_some']
  refine ⟨_, rfl, ?_⟩
  have hmarch : shader1March 0 0.18 ⟨(0.0 : ℝ), (0.0 : ℝ), (0 : ℝ) * 6⟩
      (shader1RayDir 0 (((1 / 2 : ℝ) * 2.0 - 1.0) * (1280 / 720), (1 / 2 : ℝ) * 2.0 - 1.0)) =
      shader1March 0 0.18 ⟨0, 0, 0⟩ ⟨0, 0, -1⟩ := by
    norm_num [rayDir_center]
  dsimp only
  rw [hmarch]
  obtain ⟨-, h30, h90⟩ := center_march 0.18
  obtain ⟨hd1, hd2⟩ := depthFactor_bounds h30 h90
  exact ⟨hd1, hd2, (rpow_clamp_mem_unit _).1, (rpow_clamp_mem_unit _).2,
    (rpow_clamp_mem_unit _).1, (rpow_clamp_mem_unit _).2,
    (rpow_clamp_mem_unit _).1, (rpow_clamp_mem_unit _).2⟩

/-! ### Session-loop invariants -/

lemma handleEvent_floors {s : SessionState} (e : SDLEvent)
    (h : 0.1 ≤ s.warp ∧ 0.01 ≤ s.thickness) :
    0.1 ≤ (handleEvent s e).warp ∧ 0.01 ≤ (handleEvent s e).thickness := by
  obtain ⟨h1, h2⟩ := h
  cases e with
  | quit => exact ⟨h1, h2⟩
  | keyDown sym =>
      simp only [handleEvent]
      split_ifs <;> refine ⟨?_, ?_⟩ <;>
        first
          | exact h1
          | exact h2
          | exact le_max_left _ _
          | linarith
  | sizeChanged w h' => exact ⟨h1, h2⟩
  | other => exact ⟨h1, h2⟩

lemma handleEvent_speed_pos {s : SessionState} (e : SDLEvent)
    (h : 0 < s.speed) : 0 < (handleEvent s e).speed := by
  cases e with
  | quit => exact h
  | keyDown sym =>
      simp only [handleEvent]
      split_ifs <;>
        first
          | exact h
          | exact div_pos h (by norm_num)
          | exact mul_pos h (by norm_num)
  | sizeChanged w h' => exact h
  | other => exact h

/-- Every event either leaves `speed` unchanged or multiplies/divides it by
`1.1` (the `SDLK_UP`/`SDLK_DOWN` branches). -/
lemma handleEvent_speed_shape (s : SessionState) (e : SDLEvent) :
    (handleEvent s e).speed = s.speed ∨ (handleEvent s e).speed = s.speed * 1.1 ∨
      (handleEvent s e).speed = s.speed / 1.1 := by
  cases e with
  | quit => exact Or.inl rfl
  | keyDown sym =>
      simp only [handleEvent]
      split_ifs <;>
        first
          | exact Or.inl rfl
          | exact Or.inr (Or.inl rfl)
          | exact Or.inr (Or.inr rfl)
  | sizeChanged w h' => exact Or.inl rfl
  | other => exact Or.inl rfl

lemma foldl_preserve {P : SessionState → Prop}
    (hP : ∀ s e, P s → P (handleEvent s e)) :
    ∀ (l : List SDLEvent) (s : SessionState), P s → P (l.foldl handleEvent s)
  | [], _, h => h
  | e :: l, s, h => foldl_preserve hP l (handleEvent s e) (hP s e h)

/-! ### The palette constant `6.28318` is not `2*pi` -/

lemma sin_628318_neg : Real.sin 6.28318 < 0 := by
  have hu := Real.pi_gt_d6
  have hl := Real.pi_lt_d6
  have h1 : (6.28318 : ℝ) - 2 * Real.pi < 0 := by nlinarith
  have h2 : -Real.pi < (6.28318 : ℝ) - 2 * Real.pi := by nlinarith
  have h3 := Real.sin_neg_of_neg_of_neg_pi_lt h1 h2
  rwa [Real.sin_sub_two_pi] at h3

/-! ## Claims -/

/-- C1, counterexample: the claim fails on the
shader3-tunnel-DEV-NOT-WORKING.cpp variant.  Its emitted debug value
`p*0.5+0.5` is normalized by the resolution height only, so at the wide
resolution 1280x720 the fragment at (1279.5, 360.5) gets a red channel of
`1999/1440 > 1`. -/
theorem c1_shader3_exceeds_unit :
    ∃ c, shader3Evaluate (1279.5, 360.5) 0 1280 720 = some c ∧ 1 < c.x := by
  unfold shader3Evaluate
  simp only [fdiv_eq_some (show (720 : ℝ) ≠ 0 by norm_num), Option.bind_eq_bind,
    Option.bind_some, pure]
  refine ⟨_, rfl, ?_⟩
  norm_num

/-- C1 (amended): for the variants that clamp before emitting — the
shader1-circles.cpp evaluator (whose last step is `pow(clamp(col,0,1),0.8)`)
and the shader5-45single.cpp evaluator (whose factors are bounded) — every
resolution with positive width and height, every pixel, every finite time
and every parameter set within the clamped ranges yields a color with all
channels in `[0,1]`.  The shader3 debug variant is excluded: its output
leaves `[0,1]` whenever width exceeds height. -/
theorem c1_clamped_variants_unit (uv fragCoord : ℝ × ℝ) (t w h sp wa th cs : ℝ)
    (_hw : 0 < w) (hh : 0 < h) (_hsp : 0 < sp) (_hwa : 0.1 ≤ wa) (_hth : 0.01 ≤ th) :
    (∃ c, shader1Evaluate uv t w h sp wa th cs = some c ∧ inUnit c) ∧
      (∃ c, shader5Evaluate fragCoord t w h sp wa th cs = some c ∧ inUnit c) := by
  constructor
  · obtain ⟨f, hf⟩ := @shader1Fragment_isSome uv t w h sp wa th cs (ne_of_gt hh)
    refine ⟨f.col, ?_, shader1Frag_col_mem hf⟩
    unfold shader1Evaluate
    rw [hf]
    rfl
  · exact shader5_total fragCoord t w h sp wa th cs

/-- C1 witness: the amended bound at time 0, defaults, 1280x720, center
pixel. -/
theorem c1_clamped_variants_unit_witness :
    (∃ c, shader1Evaluate (1 / 2, 1 / 2) 0 1280 720 6 1 0.18 0 = some c ∧ inUnit c) ∧
      (∃ c, shader5Evaluate (640.5, 360.5) 0 1280 720 6 1 0.18 0 = some c ∧ inUnit c) :=
  c1_clamped_variants_unit (1 / 2, 1 / 2) (640.5, 360.5) 0 1280 720 6 1 0.18 0
    (by norm_num) (by norm_num) (by norm_num) (by norm_num) (by norm_num)

/-- C2, counterexample: the claim fails on the shader1-circles.cpp variant.
With resolution (0,0) its aspect correction divides by the raw resolution
height — there is no fallback — so the evaluation is undefined (`none`,
modelling the float NaN). -/
theorem c2_shader1_zero_res_none :
    shader1Evaluate (1 / 2, 1 / 2) 0 0 0 6 1 0.18 0 = none := by
  unfold shader1Evaluate shader1Fragment fdiv
  simp

/-- C2 (amended): only the shader5-45single.cpp variant guards the
resolution: for any zero-or-negative resolution `safeResolution` substitutes
the fallback 1280x720 and the evaluator returns a defined, clamped color;
the shader1 (and shader3) variants divide by the raw height with no guard
and are undefined at height 0. -/
theorem c2_shader5_fallback (fragCoord : ℝ × ℝ) (t w h sp wa th cs : ℝ)
    (hz : w ≤ 0 ∨ h ≤ 0) :
    safeResolution (w, h) = (1280, 720) ∧
      ∃ c, shader5Evaluate fragCoord t w h sp wa th cs = some c ∧ inUnit c := by
  refine ⟨?_, shader5_total fragCoord t w h sp wa th cs⟩
  unfold safeResolution
  rw [if_pos]
  · norm_num
  · rcases hz with h1 | h1
    · exact Or.inl (by norm_num; linarith)
    · exact Or.inr (by norm_num; linarith)

/-- C2 witness: the fallback at resolution (0,0). -/
theorem c2_shader5_fallback_witness :
    safeResolution (0, 0) = (1280, 720) ∧
      ∃ c, shader5Evaluate (0.5, 0.5) 0 0 0 6 1 0.18 0 = some c ∧ inUnit c :=
  c2_shader5_fallback (0.5, 0.5) 0 0 0 6 1 0.18 0 (Or.inl le_rfl)

/-- C3, counterexample: the claim fails for the input-slot class of errors.
On a conformant device linking the shader3-tunnel-DEV-NOT-WORKING.cpp
program (whose shader declares `uTime`/`uResolution` while the host looks up
`iTime`/`iResolution`, and declares none of the parameter uniforms), all six
required lookups return `-1`, yet startup emits no diagnostic and enters the
interactive loop anyway. -/
theorem c3_unresolved_slots_enter_loop :
    shader3Env.uniformLoc "iTime" = -1 ∧ shader3Env.uniformLoc "iResolution" = -1 ∧
      shader3Env.uniformLoc "speed" = -1 ∧
      (startupMain shader3Env).1 = some ⟨-1, -1, -1, -1, -1, -1⟩ ∧
      (startupMain shader3Env).2 = [] := by
  decide

/-- C3 (amended): compile failures and link failures are reported with
diagnostic text and prevent the process from entering the interactive loop;
but failure to resolve one of the six input slots is never checked — startup
proceeds into the loop with `-1` bindings. -/
theorem c3_compile_link_abort (env : GLEnv)
    (hsdl : env.sdlOk = true) (hwin : env.windowOk = true)
    (hctx : env.contextOk = true) (hglad : env.gladOk = true)
    (hfail : env.vsOk = false ∨ env.fsOk = false ∨ env.linkOk = false) :
    (startupMain env).1 = none ∧ (startupMain env).2 ≠ [] := by
  rcases hfail with h | h | h <;>
    rcases hv : env.vsOk <;> rcases hf : env.fsOk <;>
      simp_all [startupMain]

/-- C3 witness: a failed vertex-shader compile aborts with a diagnostic. -/
theorem c3_compile_link_abort_witness :
    (startupMain envCompileFail).1 = none ∧ (startupMain envCompileFail).2 ≠ [] :=
  c3_compile_link_abort envCompileFail rfl rfl rfl rfl (Or.inl rfl)

/-- C4 (confirmed): the shader1 evaluator is deterministic — its embedding
is a pure function of exactly (pixel `uv`, time, resolution, parameters), so
two invocations with equal inputs yield equal colors; there is no other
state it can read. -/
theorem c4_deterministic (uv uv' : ℝ × ℝ)
    (t t' rx rx' ry ry' sp sp' wa wa' th th' cs cs' : ℝ)
    (h1 : uv = uv') (h2 : t = t') (h3 : rx = rx') (h4 : ry = ry')
    (h5 : sp = sp') (h6 : wa = wa') (h7 : th = th') (h8 : cs = cs') :
    shader1Evaluate uv t rx ry sp wa th cs =
      shader1Evaluate uv' t' rx' ry' sp' wa' th' cs' := by
  subst h1
  subst h2
  subst h3
  subst h4
  subst h5
  subst h6
  subst h7
  subst h8
  rfl

/-- C4 witness: determinism at a concrete input. -/
theorem c4_deterministic_witness :
    shader1Evaluate (1 / 2, 1 / 2) 0 1280 720 6 1 0.18 0 =
      shader1Evaluate (1 / 2, 1 / 2) 0 1280 720 6 1 0.18 0 :=
  c4_deterministic (1 / 2, 1 / 2) (1 / 2, 1 / 2) 0 0 1280 1280 720 720 6 6 1 1
    0.18 0.18 0 0 rfl rfl rfl rfl rfl rfl rfl rfl

/-- C5, counterexample: the palette is not periodic with period exactly 1.
The source multiplies the phase by the literal `6.28318`, which is slightly
less than `2*pi`, so at phase 0 with `colorShift = 0` the red channel of
`palette(0+1)` is `0.5 + 0.5*sin(6.28318) < 0.5` while `palette(0)` has red
channel exactly `0.5`. -/
theorem c5_not_period_one : palette 0 (0 + 1) ≠ palette 0 0 := by
  intro hEq
  have hx := congrArg V3.x hEq
  simp only [palette] at hx
  norm_num [Real.sin_zero] at hx
  rw [show (314159 / 50000 : ℝ) = 6.28318 by norm_num] at hx
  exact absurd hx (ne_of_lt sin_628318_neg)

/-- C5 (amended): the palette is periodic in its phase argument with period
`2*pi/6.28318` (approximately `1.0000008`), for every `colorShift`. -/
theorem c5_true_period (cs t : ℝ) :
    palette cs (t + 2 * Real.pi / 6.28318) = palette cs t := by
  unfold palette
  have key : ∀ k : ℝ, 6.28318 * (t + 2 * Real.pi / 6.28318 + k + cs) =
      6.28318 * (t + k + cs) + 2 * Real.pi := by
    intro k
    field_simp
    ring
  simp only [V3.mk.injEq]
  exact ⟨by rw [key, Real.sin_add_two_pi], by rw [key, Real.sin_add_two_pi],
    by rw [key, Real.sin_add_two_pi]⟩

/-- C6 (confirmed): starting from the defaults, after any finite event
sequence the stored `warp` stays at or above 0.1 and the stored `thickness`
at or above 0.01 — the decrement branches floor at those values via
`std::max` and every other branch leaves them fixed or increases them. -/
theorem c6_param_floors (evs : List SDLEvent) :
    0.1 ≤ (runEvents evs).warp ∧ 0.01 ≤ (runEvents evs).thickness := by
  unfold runEvents
  exact @foldl_preserve (fun st => 0.1 ≤ st.warp ∧ 0.01 ≤ st.thickness)
    (fun s e hs => handleEvent_floors e hs) evs initialState
    (by constructor <;> norm_num [initialState])

/-- C7 (confirmed): every event either leaves `speed` unchanged, multiplies
it by 1.1, or divides it by 1.1; starting from the default 6.0, the stored
speed stays strictly positive after any finite event sequence. -/
theorem c7_speed_pos :
    (∀ (s : SessionState) (e : SDLEvent),
        (handleEvent s e).speed = s.speed ∨
          (handleEvent s e).speed = s.speed * 1.1 ∨
          (handleEvent s e).speed = s.speed / 1.1) ∧
      ∀ evs : List SDLEvent, 0 < (runEvents evs).speed := by
  refine ⟨handleEvent_speed_shape, fun evs => ?_⟩
  unfold runEvents
  exact @foldl_preserve (fun st => 0 < st.speed)
    (fun s e hs => handleEvent_speed_pos e hs) evs initialState
    (by norm_num [initialState])

/-- C8 (confirmed): both ray-march loops terminate within their fixed
budgets.  Every shader1 iteration advances `t` by at least 0.02 (so `t` is
strictly increasing), the loop executes at most 120 iterations, the final
`t` is at least `0.02 * iterations`, and the loop either exhausts the budget
or has just crossed the 100-unit cutoff; likewise for the part_000 loop with
floor 0.015, budget 140 and cutoff 200. -/
theorem c8_march_bounded :
    (∀ (iTime th : ℝ) (ro rd : V3) (s : MarchState),
        s.t + 0.02 ≤ (shader1MarchStep iTime th ro rd s).t) ∧
      (∀ (iTime th : ℝ) (ro rd : V3),
        (shader1March iTime th ro rd).iters ≤ 120 ∧
          0.02 * ((shader1March iTime th ro rd).iters : ℝ) ≤
            (shader1March iTime th ro rd).t ∧
          ((shader1March iTime th ro rd).iters = 120 ∨
            100 < (shader1March iTime th ro rd).t)) ∧
      (∀ (iTime th : ℝ) (ro rd : V3) (s : Part0MarchState),
        s.t + 0.015 ≤ (part0MarchStep iTime th ro rd s).t) ∧
      ∀ (iTime th : ℝ) (ro rd : V3),
        (part0March iTime th ro rd).iters ≤ 140 ∧
          0.015 * ((part0March iTime th ro rd).iters : ℝ) ≤
            (part0March iTime th ro rd).t ∧
          ((part0March iTime th ro rd).iters = 140 ∨
            200 < (part0March iTime th ro rd).t) := by
  refine ⟨shader1MarchStep_t, fun iTime th ro rd => ⟨?_, ?_, ?_⟩,
    part0MarchStep_t, fun iTime th ro rd => ⟨?_, ?_, ?_⟩⟩
  · simpa [shader1March] using shader1MarchAux_iters_le iTime th ro rd 120 ⟨0, 0, 0, 0⟩
  · simpa [shader1March] using
      shader1MarchAux_t_floor iTime th ro rd 120 ⟨0, 0, 0, 0⟩ (by norm_num)
  · simpa [shader1March] using
      shader1MarchAux_full_or_cutoff iTime th ro rd 120 ⟨0, 0, 0, 0⟩
  · simpa [part0March] using part0MarchAux_iters_le iTime th ro rd 140 ⟨0, 0, 0, 0, 0, 0⟩
  · simpa [part0March] using
      part0MarchAux_t_floor iTime th ro rd 140 ⟨0, 0, 0, 0, 0, 0⟩ (by norm_num)
  · simpa [part0March] using
      part0MarchAux_full_or_cutoff iTime th ro rd 140 ⟨0, 0, 0, 0, 0, 0⟩

/-- C9, counterexample: at time 0, default parameters, resolution 1280x720
and the center pixel (640,360), the shader1 depth factor is below 0.9 —
not approximately 1.  The center ray runs straight down the tunnel axis, so
every SDF value has magnitude at least 1/2, every adaptive step is at least
1/4, the cutoff never fires, and after the full 120 iterations `t ≥ 30`,
giving `depth = exp(-0.02*t) ≤ exp(-0.6) < 0.9`. -/
theorem c9_center_depth_not_near_one :
    ∃ f, shader1Fragment (pixelToUV 640 360 1280 720) 0 1280 720 6 1 0.18 0 = some f ∧
      f.depth < 9 / 10 := by
  obtain ⟨f, hf, -, h2, -⟩ := center_frag
  exact ⟨f, hf, lt_of_le_of_lt h2 exp_neg_point_six_lt⟩

/-- C9 (amended): in the same scenario the evaluation is defined, the depth
factor lies in `[exp(-1.8), exp(-0.6)]` — i.e. the fog attenuates the center
pixel by roughly half rather than leaving it unattenuated — and every color
channel is non-negative (indeed in `[0,1]`, hence finite). -/
theorem c9_center_depth_attenuated :
    ∃ f, shader1Fragment (pixelToUV 640 360 1280 720) 0 1280 720 6 1 0.18 0 = some f ∧
      Real.exp (-(9 / 5) : ℝ) ≤ f.depth ∧ f.depth ≤ Real.exp (-(3 / 5) : ℝ) ∧
      inUnit f.col :=
  center_frag

/-- C10 (confirmed): a key-down event whose keycode is none of the nine
recognized keys leaves the entire session state unchanged — parameters,
stored resolution and the running flag included. -/
theorem c10_unrecognized_key (s : SessionState) (sym : ℕ)
    (h : sym ∉ recognizedKeys) : handleEvent s (SDLEvent.keyDown sym) = s := by
  simp only [recognizedKeys, List.mem_cons, List.not_mem_nil, or_false, not_or] at h
  obtain ⟨h1, h2, h3, h4, h5, h6, h7, h8, h9⟩ := h
  simp only [handleEvent]
  rw [if_neg h1, if_neg h2, if_neg h3, if_neg h4, if_neg h5, if_neg h6, if_neg h7,
    if_neg h8, if_neg h9]

/-- C10 witness: keycode 113 (the letter q) is unrecognized and changes
nothing. -/
theorem c10_unrecognized_key_witness :
    113 ∉ recognizedKeys ∧
      handleEvent initialState (SDLEvent.keyDown 113) = initialState :=
  ⟨by decide, c10_unrecognized_key initialState 113 (by decide)⟩

end Timewarp
